import Mathlib

/-!
Verification of the trpc-a2a-go repository: a shallow embedding of the
A2A client's SSE stream reader and request/decode path (client package),
of the task-manager error constructors (taskmanager/errors.go), and of
the in-memory task store operations, together with theorems settling the
spec claims about them.

Machine integers do not occur on the verified paths; Go strings are
modelled as Lean `String`, byte slices as `List Nat`, and Go's
`(value, error)` return pairs as `Option`/`Except` style sums mirroring
the individual `return` sites of the source.
-/

namespace A2A

/-- Modelled from the spec: the `TaskState` enum of the `taskmanager`
package (its type-definition file is not among the provided sources;
values and finality follow spec section 3). -/
inductive TaskState
  | submitted
  | working
  | inputRequired
  | completed
  | failed
  | canceled
  deriving DecidableEq, Repr

/-- Modelled from the spec: the wire string of each task state
(`submitted`, `working`, `input-required`, `completed`, `failed`,
`canceled`). -/
def TaskState.toWire : TaskState → String
  | .submitted => "submitted"
  | .working => "working"
  | .inputRequired => "input-required"
  | .completed => "completed"
  | .failed => "failed"
  | .canceled => "canceled"

/-- Modelled from the spec: `completed`, `failed`, `canceled` are the
final states (spec section 3). -/
def TaskState.isFinal : TaskState → Bool
  | .completed => true
  | .failed => true
  | .canceled => true
  | _ => false

/-- Modelled from the spec: `TaskStatus` is a state plus the timestamp of
this status. -/
structure TaskStatus where
  state : TaskState
  timestamp : String
  deriving DecidableEq, Repr

/-- Modelled from the spec: a message part, polymorphic over text,
file-reference and structured-data variants. -/
inductive Part
  | text (s : String)
  | file (uri : String)
  | data (payload : String)
  deriving DecidableEq, Repr

/-- Modelled from the spec: the role of a message author. -/
inductive MessageRole
  | user
  | agent
  deriving DecidableEq, Repr

/-- Modelled from the spec: `Message` is a role plus an ordered sequence
of parts. -/
structure Message where
  role : MessageRole
  parts : List Part
  deriving DecidableEq, Repr

/-- Modelled from the spec: `Artifact` with its index, parts and
append/last-chunk flags. -/
structure Artifact where
  index : Int
  parts : List Part
  append : Bool
  lastChunk : Bool
  deriving DecidableEq, Repr

/-- Modelled from the spec: the `Task` record — identity, status,
append-only history and artifacts. -/
structure Task where
  id : String
  sessionID : String
  status : TaskStatus
  history : List Message
  artifacts : List Artifact
  deriving DecidableEq, Repr

/-- Modelled from the spec: `TaskStatusUpdateEvent {ID, Status, Final}`. -/
structure TaskStatusUpdateEvent where
  id : String
  status : TaskStatus
  final : Bool
  deriving DecidableEq, Repr

/-- Modelled from the spec: `TaskArtifactUpdateEvent {ID, Artifact}`. -/
structure TaskArtifactUpdateEvent where
  id : String
  artifact : Artifact
  deriving DecidableEq, Repr

/-- Modelled from the spec: `TaskEvent`, the tagged union of status and
artifact update events. -/
inductive TaskEvent
  | statusUpdate (e : TaskStatusUpdateEvent)
  | artifactUpdate (e : TaskArtifactUpdateEvent)
  deriving DecidableEq, Repr

/-- The `jsonrpc.Error` structure `{code, message, data}` (its defining
file is not among the provided sources; the shape is fixed by
taskmanager/errors.go and the spec's JSON-RPC envelope). -/
structure JSONRPCError where
  code : Int
  message : String
  data : String
  deriving DecidableEq, Repr

/-- taskmanager/errors.go: `ErrCodeTaskNotFound int = -32001`. -/
def ErrCodeTaskNotFound : Int := -32001

/-- taskmanager/errors.go: `ErrCodeTaskFinal int = -32002`. -/
def ErrCodeTaskFinal : Int := -32002

/-- taskmanager/errors.go: `ErrCodePushNotificationNotConfigured int = -32003`. -/
def ErrCodePushNotificationNotConfigured : Int := -32003

/-- taskmanager/errors.go: `ErrTaskNotFound` builds the JSON-RPC error
for a missing task. -/
def ErrTaskNotFound (taskID : String) : JSONRPCError :=
  { code := ErrCodeTaskNotFound
    message := "Task not found"
    data := "Task with ID \x27" ++ taskID ++ "\x27 was not found." }

/-- taskmanager/errors.go: `ErrTaskFinalState` builds the JSON-RPC error
for an operation on a task already in a final state. -/
def ErrTaskFinalState (taskID : String) (state : TaskState) : JSONRPCError :=
  { code := ErrCodeTaskFinal
    message := "Task is in final state"
    data := "Task \x27" ++ taskID ++ "\x27 is already in final state: " ++ state.toWire }

/-- taskmanager/errors.go: `ErrPushNotificationNotConfigured` builds the
JSON-RPC error for a task without push-notification configuration. -/
def ErrPushNotificationNotConfigured (taskID : String) : JSONRPCError :=
  { code := ErrCodePushNotificationNotConfigured
    message := "Push Notification not configured"
    data := "Task \x27" ++ taskID ++ "\x27 does not have push notifications configured." }

/-- C9: the domain error constructors produce JSON-RPC errors with exactly
the codes -32001 (task not found), -32002 (task in final state) and
-32003 (push notification not configured). -/
theorem c9_error_codes :
    (∀ taskID : String, (ErrTaskNotFound taskID).code = -32001) ∧
    (∀ (taskID : String) (state : TaskState),
      (ErrTaskFinalState taskID state).code = -32002) ∧
    (∀ taskID : String, (ErrPushNotificationNotConfigured taskID).code = -32003) :=
  ⟨fun _ => rfl, fun _ _ => rfl, fun _ => rfl⟩

/-- Modelled from the spec: `protocol.EventClose`, the terminal `close`
SSE event-type sentinel (spec section 6; the protocol constants file is
not among the provided sources). -/
def eventClose : String := "close"

/-- Modelled from the spec: `protocol.EventTaskStatusUpdate`, the
`task_status_update` SSE event type. -/
def eventTaskStatusUpdate : String := "task_status_update"

/-- Modelled from the spec: `protocol.EventTaskArtifactUpdate`, the
`task_artifact_update` SSE event type. -/
def eventTaskArtifactUpdate : String := "task_artifact_update"

/-- One outcome of `sse.EventReader.ReadEvent` in the client's read loop:
either a successfully framed event `(eventType, eventBytes)` or a
non-EOF read error. The stream is a list of such outcomes; running off
the end of the list models `ReadEvent` returning `io.EOF`. -/
inductive ReadStep
  | ev (eventType : String) (eventBytes : List Nat)
  | ioErr
  deriving DecidableEq, Repr

/-- Why the client's `processSSEStream` goroutine returned: clean
end-of-stream (EOF), an explicit `close` frame, a read error from the SSE
reader, or cancellation of the caller's context. -/
inductive StopReason
  | eof
  | closeFrame
  | readError
  | canceled
  deriving DecidableEq, Repr

/-- The observable result of one run of `processSSEStream`: the events
sent on the caller's channel in order, the reason the loop returned, and
how many times `close(eventsChan)` ran (the deferred close executes once
on every exit path). -/
structure SSEOutcome where
  delivered : List TaskEvent
  reason : StopReason
  channelCloses : Nat
  deriving DecidableEq, Repr

/-- Whether the caller's context is done when the loop makes its check
number `i`. `cancelAt = none` means the context is never canceled;
`cancelAt = some c` means it is done from check `c` onward. -/
def ctxDoneAt (cancelAt : Option Nat) (i : Nat) : Bool :=
  match cancelAt with
  | none => false
  | some c => decide (c ≤ i)

/-- The loop body of `client.processSSEStream` (src part_000 lines
211-285), one list entry per `ReadEvent` call. `decS` and `decA` stand
for `json.Unmarshal` into `TaskStatusUpdateEvent` and
`TaskArtifactUpdateEvent` (`none` = unmarshal error). Per iteration: the
`select` checks the context; a read error or EOF returns; empty
`eventBytes` are skipped (`continue`); then a `close` event type returns;
then the event-type switch decodes, skipping malformed and unknown
events; a decoded event is sent on the channel (or the loop returns if
the context is canceled). -/
def processSSEGo (decS : List Nat → Option TaskStatusUpdateEvent)
    (decA : List Nat → Option TaskArtifactUpdateEvent)
    (cancelAt : Option Nat) (i : Nat) : List ReadStep → SSEOutcome
  | [] =>
    if ctxDoneAt cancelAt i then ⟨[], .canceled, 1⟩
    else ⟨[], .eof, 1⟩
  | step :: rest =>
    if ctxDoneAt cancelAt i then ⟨[], .canceled, 1⟩
    else
      match step with
      | .ioErr => ⟨[], .readError, 1⟩
      | .ev eventType eventBytes =>
        if eventBytes.isEmpty then
          processSSEGo decS decA cancelAt (i + 1) rest
        else if eventType == eventClose then ⟨[], .closeFrame, 1⟩
        else if eventType == eventTaskStatusUpdate then
          match decS eventBytes with
          | none => processSSEGo decS decA cancelAt (i + 1) rest
          | some e =>
            let r := processSSEGo decS decA cancelAt (i + 1) rest
            ⟨TaskEvent.statusUpdate e :: r.delivered, r.reason, r.channelCloses⟩
        else if eventType == eventTaskArtifactUpdate then
          match decA eventBytes with
          | none => processSSEGo decS decA cancelAt (i + 1) rest
          | some e =>
            let r := processSSEGo decS decA cancelAt (i + 1) rest
            ⟨TaskEvent.artifactUpdate e :: r.delivered, r.reason, r.channelCloses⟩
        else processSSEGo decS decA cancelAt (i + 1) rest

/-- `client.processSSEStream`: run the read loop from the start of the
stream. -/
def processSSEStream (decS : List Nat → Option TaskStatusUpdateEvent)
    (decA : List Nat → Option TaskArtifactUpdateEvent)
    (cancelAt : Option Nat) (stream : List ReadStep) : SSEOutcome :=
  processSSEGo decS decA cancelAt 0 stream

theorem statusBeqClose : (eventTaskStatusUpdate == eventClose) = false := by decide

theorem artifactBeqClose : (eventTaskArtifactUpdate == eventClose) = false := by decide

theorem artifactBeqStatus : (eventTaskArtifactUpdate == eventTaskStatusUpdate) = false := by
  decide

/-- With an never-canceled context the loop's check counter is
irrelevant. -/
theorem processSSEGo_counter_irrel (decS : List Nat → Option TaskStatusUpdateEvent)
    (decA : List Nat → Option TaskArtifactUpdateEvent) :
    ∀ (xs : List ReadStep) (i j : Nat),
      processSSEGo decS decA none i xs = processSSEGo decS decA none j xs := by
  intro xs
  induction xs with
  | nil => intro i j; rfl
  | cons step rest ih =>
    intro i j
    cases step with
    | ioErr => rfl
    | ev t bytes =>
      show processSSEGo decS decA none i (ReadStep.ev t bytes :: rest) =
        processSSEGo decS decA none j (ReadStep.ev t bytes :: rest)
      simp only [processSSEGo, ctxDoneAt]
      by_cases hb : bytes.isEmpty
      · simp only [hb, if_true]
        exact ih (i + 1) (j + 1)
      · simp only [hb, if_false, Bool.false_eq_true]
        by_cases hc : (t == eventClose) = true
        · simp only [hc, if_true]
        · simp only [hc, if_false, Bool.false_eq_true]
          by_cases hs : (t == eventTaskStatusUpdate) = true
          · simp only [hs, if_true]
            cases hd : decS bytes with
            | none => exact ih (i + 1) (j + 1)
            | some e => simp only [ih (i + 1) (j + 1)]
          · simp only [hs, if_false, Bool.false_eq_true]
            by_cases ha : (t == eventTaskArtifactUpdate) = true
            · simp only [ha, if_true]
              cases hd : decA bytes with
              | none => exact ih (i + 1) (j + 1)
              | some e => simp only [ih (i + 1) (j + 1)]
            · simp only [ha, if_false, Bool.false_eq_true]
              exact ih (i + 1) (j + 1)

/-- C10: in `processSSEStream` the empty-payload check precedes the
event-type dispatch, so any frame whose payload is empty — in particular
a `close` frame with empty payload — is skipped and the reader continues
with the rest of the stream exactly as if the frame were absent; it does
not stop. -/
theorem c10_empty_payload_skipped_before_close_check
    (decS : List Nat → Option TaskStatusUpdateEvent)
    (decA : List Nat → Option TaskArtifactUpdateEvent)
    (t : String) (rest : List ReadStep) :
    processSSEStream decS decA none (ReadStep.ev t [] :: rest) =
      processSSEStream decS decA none rest := by
  show processSSEGo decS decA none 0 (ReadStep.ev t [] :: rest) =
    processSSEGo decS decA none 0 rest
  simp only [processSSEGo, ctxDoneAt, List.isEmpty, if_true]
  exact processSSEGo_counter_irrel decS decA rest 1 0

/-- After a `close` frame with non-empty payload, the rest of the stream
is irrelevant to the loop's outcome. -/
theorem processSSEGo_close_truncates (decS : List Nat → Option TaskStatusUpdateEvent)
    (decA : List Nat → Option TaskArtifactUpdateEvent)
    (cancelAt : Option Nat) (bytes : List Nat) (h : bytes ≠ []) :
    ∀ (pre post : List ReadStep) (i : Nat),
      processSSEGo decS decA cancelAt i (pre ++ ReadStep.ev eventClose bytes :: post) =
        processSSEGo decS decA cancelAt i (pre ++ [ReadStep.ev eventClose bytes]) := by
  have hb : bytes.isEmpty = false := by
    cases bytes with
    | nil => exact absurd rfl h
    | cons a as => rfl
  intro pre
  induction pre with
  | nil =>
    intro post i
    simp only [List.nil_append, processSSEGo, hb, beq_self_eq_true, if_true, if_false,
      Bool.false_eq_true]
  | cons step rest ih =>
    intro post i
    simp only [List.cons_append]
    cases step with
    | ioErr =>
      simp only [processSSEGo]
    | ev t b =>
      simp only [processSSEGo]
      by_cases hd : ctxDoneAt cancelAt i
      · simp only [hd, if_true]
      · simp only [hd, if_false, Bool.false_eq_true]
        by_cases he : b.isEmpty
        · simp only [he, if_true]
          exact ih post (i + 1)
        · simp only [he, if_false, Bool.false_eq_true]
          by_cases hc : (t == eventClose) = true
          · simp only [hc, if_true]
          · simp only [hc, if_false, Bool.false_eq_true]
            by_cases hs : (t == eventTaskStatusUpdate) = true
            · simp only [hs, if_true]
              cases hds : decS b with
              | none => exact ih post (i + 1)
              | some e => simp only [ih post (i + 1)]
            · simp only [hs, if_false, Bool.false_eq_true]
              by_cases ha : (t == eventTaskArtifactUpdate) = true
              · simp only [ha, if_true]
                cases hda : decA b with
                | none => exact ih post (i + 1)
                | some e => simp only [ih post (i + 1)]
              · simp only [ha, if_false, Bool.false_eq_true]
                exact ih post (i + 1)

/-- C1 counterexample: a `close` frame with empty payload does not stop
the reader — here a status event from a frame strictly after the close
frame is still delivered to the caller's channel. -/
theorem c1_close_counterexample :
    (processSSEStream
        (fun b => if b = [1] then
          some ⟨"t1", ⟨TaskState.working, "ts"⟩, false⟩ else none)
        (fun _ => none) none
        [ReadStep.ev eventClose [], ReadStep.ev eventTaskStatusUpdate [1]]).delivered =
      [TaskEvent.statusUpdate ⟨"t1", ⟨TaskState.working, "ts"⟩, false⟩] := by
  decide

/-- C1 (amended): once a frame with event type `close` and a non-empty
payload is encountered, the reader stops there: the whole outcome equals
that of the stream truncated right after that frame, so no event from
any later frame is ever delivered, regardless of what bytes follow. -/
theorem c1_close_frame_stops_reader (decS : List Nat → Option TaskStatusUpdateEvent)
    (decA : List Nat → Option TaskArtifactUpdateEvent)
    (cancelAt : Option Nat) (pre post : List ReadStep) (bytes : List Nat)
    (h : bytes ≠ []) :
    processSSEStream decS decA cancelAt (pre ++ ReadStep.ev eventClose bytes :: post) =
      processSSEStream decS decA cancelAt (pre ++ [ReadStep.ev eventClose bytes]) :=
  processSSEGo_close_truncates decS decA cancelAt bytes h pre post 0

/-- C1 witness: the amended theorem applied at a concrete stream — a
status frame and a payload-carrying close frame followed by a read
error; the trailing error is invisible in the outcome. -/
theorem c1_close_frame_stops_reader_witness :
    processSSEStream (fun _ => none) (fun _ => none) none
        ([ReadStep.ev eventTaskStatusUpdate [2]] ++
          ReadStep.ev eventClose [0] :: [ReadStep.ioErr]) =
      processSSEStream (fun _ => none) (fun _ => none) none
        ([ReadStep.ev eventTaskStatusUpdate [2]] ++ [ReadStep.ev eventClose [0]]) :=
  c1_close_frame_stops_reader (fun _ => none) (fun _ => none) none
    [ReadStep.ev eventTaskStatusUpdate [2]] [ReadStep.ioErr] [0] (by decide)

/-- C7: a `task_status_update` or `task_artifact_update` frame whose
payload fails JSON decoding is skipped — processing continues exactly as
if the frame were absent, so one malformed payload never terminates the
read loop or changes what the rest of the stream delivers. -/
theorem c7_malformed_payload_skipped (decS : List Nat → Option TaskStatusUpdateEvent)
    (decA : List Nat → Option TaskArtifactUpdateEvent)
    (bytes : List Nat) (rest : List ReadStep)
    (hS : decS bytes = none) (hA : decA bytes = none) :
    processSSEStream decS decA none (ReadStep.ev eventTaskStatusUpdate bytes :: rest) =
        processSSEStream decS decA none rest ∧
      processSSEStream decS decA none (ReadStep.ev eventTaskArtifactUpdate bytes :: rest) =
        processSSEStream decS decA none rest := by
  constructor
  · show processSSEGo decS decA none 0
        (ReadStep.ev eventTaskStatusUpdate bytes :: rest) =
      processSSEGo decS decA none 0 rest
    by_cases hb : bytes.isEmpty
    · simp only [processSSEGo, ctxDoneAt, hb, if_true]
      exact processSSEGo_counter_irrel decS decA rest 1 0
    · simp only [processSSEGo, ctxDoneAt, hb, statusBeqClose, beq_self_eq_true,
        if_true, if_false, Bool.false_eq_true, hS]
      exact processSSEGo_counter_irrel decS decA rest 1 0
  · show processSSEGo decS decA none 0
        (ReadStep.ev eventTaskArtifactUpdate bytes :: rest) =
      processSSEGo decS decA none 0 rest
    by_cases hb : bytes.isEmpty
    · simp only [processSSEGo, ctxDoneAt, hb, if_true]
      exact processSSEGo_counter_irrel decS decA rest 1 0
    · simp only [processSSEGo, ctxDoneAt, hb, artifactBeqClose, artifactBeqStatus,
        beq_self_eq_true, if_true, if_false, Bool.false_eq_true, hA]
      exact processSSEGo_counter_irrel decS decA rest 1 0

/-- C7 witness: the theorem at a concrete malformed payload, decoders
that reject it, and a one-frame remainder. -/
theorem c7_malformed_payload_skipped_witness :
    processSSEStream (fun _ => none) (fun _ => none) none
          (ReadStep.ev eventTaskStatusUpdate [7] :: [ReadStep.ioErr]) =
        processSSEStream (fun _ => none) (fun _ => none) none [ReadStep.ioErr] ∧
      processSSEStream (fun _ => none) (fun _ => none) none
          (ReadStep.ev eventTaskArtifactUpdate [7] :: [ReadStep.ioErr]) =
        processSSEStream (fun _ => none) (fun _ => none) none [ReadStep.ioErr] :=
  c7_malformed_payload_skipped (fun _ => none) (fun _ => none) [7] [ReadStep.ioErr]
    rfl rfl

/-- Spec-side description of when the reader stops (spec section 4.5,
with the C10 amendment): scanning the stream in order, the reader stops
at the first of — context cancellation, a read error, or a `close` frame
carrying a non-empty payload — and otherwise reports clean EOF completion
at end of stream. Written from the spec's words; independent of the
payload decoders. -/
def specStopReason (cancelAt : Option Nat) : Nat → List ReadStep → StopReason
  | i, [] => if ctxDoneAt cancelAt i then .canceled else .eof
  | i, .ioErr :: _ => if ctxDoneAt cancelAt i then .canceled else .readError
  | i, .ev t bytes :: rest =>
    if ctxDoneAt cancelAt i then .canceled
    else if !bytes.isEmpty && (t == eventClose) then .closeFrame
    else specStopReason cancelAt (i + 1) rest

theorem processSSEGo_stop_spec (decS : List Nat → Option TaskStatusUpdateEvent)
    (decA : List Nat → Option TaskArtifactUpdateEvent) (cancelAt : Option Nat) :
    ∀ (xs : List ReadStep) (i : Nat),
      (processSSEGo decS decA cancelAt i xs).reason = specStopReason cancelAt i xs ∧
        (processSSEGo decS decA cancelAt i xs).channelCloses = 1 := by
  intro xs
  induction xs with
  | nil =>
    intro i
    constructor
    · show (if ctxDoneAt cancelAt i then (⟨[], .canceled, 1⟩ : SSEOutcome)
          else ⟨[], .eof, 1⟩).reason = _
      by_cases hd : ctxDoneAt cancelAt i
      · simp [specStopReason, hd]
      · simp [specStopReason, hd]
    · show (if ctxDoneAt cancelAt i then (⟨[], .canceled, 1⟩ : SSEOutcome)
          else ⟨[], .eof, 1⟩).channelCloses = 1
      by_cases hd : ctxDoneAt cancelAt i
      · simp [hd]
      · simp [hd]
  | cons step rest ih =>
    intro i
    by_cases hd : ctxDoneAt cancelAt i
    · cases step with
      | ioErr => simp [processSSEGo, specStopReason, hd]
      | ev t b => simp [processSSEGo, specStopReason, hd]
    · cases step with
      | ioErr => simp [processSSEGo, specStopReason, hd]
      | ev t b =>
        simp only [processSSEGo, specStopReason, hd, if_false, Bool.false_eq_true]
        by_cases hb : b.isEmpty
        · simp only [hb, if_true, Bool.not_true, Bool.false_and]
          exact ih (i + 1)
        · simp only [hb, if_false, Bool.false_eq_true,
            Bool.not_false, Bool.true_and]
          by_cases hc : (t == eventClose) = true
          · simp [hc]
          · simp only [hc, if_false, Bool.false_eq_true]
            by_cases hs : (t == eventTaskStatusUpdate) = true
            · simp only [hs, if_true]
              cases hds : decS b with
              | none => exact ih (i + 1)
              | some e => exact ih (i + 1)
            · simp only [hs, if_false, Bool.false_eq_true]
              by_cases ha : (t == eventTaskArtifactUpdate) = true
              · simp only [ha, if_true]
                cases hda : decA b with
                | none => exact ih (i + 1)
                | some e => exact ih (i + 1)
              · simp only [ha, if_false, Bool.false_eq_true]
                exact ih (i + 1)

/-- C8 counterexample: the reader does not terminate at a `close` frame
that carries an empty payload — with a later read error in the stream it
terminates on that read error instead, although the close frame came
first. -/
theorem c8_close_first_counterexample :
    (processSSEStream (fun _ => none) (fun _ => none) none
      [ReadStep.ev eventClose [], ReadStep.ioErr]).reason = StopReason.readError := by
  decide

/-- C8 (amended): for every run of the reader, the caller's channel is
closed exactly once, by the reader, and the reader terminates on exactly
the first of: end-of-stream (EOF, reported as the distinct completion
reason, not as an error), a `close` frame carrying a non-empty payload,
a read-loop error, or cancellation of the caller's context. -/
theorem c8_termination_and_single_close (decS : List Nat → Option TaskStatusUpdateEvent)
    (decA : List Nat → Option TaskArtifactUpdateEvent)
    (cancelAt : Option Nat) (stream : List ReadStep) :
    (processSSEStream decS decA cancelAt stream).reason =
        specStopReason cancelAt 0 stream ∧
      (processSSEStream decS decA cancelAt stream).channelCloses = 1 :=
  processSSEGo_stop_spec decS decA cancelAt stream 0

/-- Whether the character list `sub` occurs at the head of the second
list. -/
def charsLeads : List Char → List Char → Bool
  | [], _ => true
  | _ :: _, [] => false
  | a :: as, b :: bs => a == b && charsLeads as bs

/-- Whether `sub` occurs anywhere (contiguously) in the second list. -/
def charsContainsRun (sub : List Char) : List Char → Bool
  | [] => charsLeads sub []
  | c :: cs => charsLeads sub (c :: cs) || charsContainsRun sub cs

/-- Go `strings.Contains(s, sub)`. -/
def goStringContains (s sub : String) : Bool :=
  charsContainsRun sub.toList s.toList

/-- The fields of the HTTP response that `client.StreamTask` inspects
after `httpClient.Do` succeeds. -/
structure HTTPResponse where
  statusCode : Nat
  contentType : String
  deriving DecidableEq, Repr

/-- The two synchronous failure sites of `StreamTask` after the POST:
non-200 status, or a Content-Type not advertising an event stream. -/
inductive StreamSetupError
  | unexpectedStatus (code : Nat)
  | notEventStream (contentType : String)
  deriving DecidableEq, Repr

/-- What a successful `StreamTask` sets up: the buffered channel it
returns (capacity 10 in the source) and the background reader goroutine
it starts. -/
structure StreamSetup where
  channelCapacity : Nat
  readerStarted : Bool
  deriving DecidableEq, Repr

/-- `client.StreamTask` from the moment the HTTP response is available
(src part_000 lines 170-194): reject a status other than 200, then
reject a Content-Type not containing `text/event-stream`; only when both
checks pass make the capacity-10 events channel and start
`processSSEStream`. -/
def StreamTask (resp : HTTPResponse) : Except StreamSetupError StreamSetup :=
  if resp.statusCode ≠ 200 then .error (.unexpectedStatus resp.statusCode)
  else if goStringContains resp.contentType "text/event-stream" = false then
    .error (.notEventStream resp.contentType)
  else .ok ⟨10, true⟩

/-- C3: a non-200 status or a Content-Type without `text/event-stream`
makes `StreamTask` return an error synchronously — no channel and no
reader (the `.error` branch carries no `StreamSetup`); only when both
checks pass does it return the capacity-10 channel with the reader
started. -/
theorem c3_streamtask_validates_response (resp : HTTPResponse) :
    (resp.statusCode ≠ 200 →
        StreamTask resp = .error (.unexpectedStatus resp.statusCode)) ∧
      (resp.statusCode = 200 →
        goStringContains resp.contentType "text/event-stream" = false →
        StreamTask resp = .error (.notEventStream resp.contentType)) ∧
      (resp.statusCode = 200 →
        goStringContains resp.contentType "text/event-stream" = true →
        StreamTask resp = .ok ⟨10, true⟩) := by
  refine ⟨fun h => ?_, fun h hc => ?_, fun h hc => ?_⟩
  · simp [StreamTask, h]
  · simp [StreamTask, h, hc]
  · simp [StreamTask, h, hc]

/-- C3 witness: the theorem at a 404 response, at a 200 response with a
JSON Content-Type, and at a proper event-stream response. -/
theorem c3_streamtask_validates_response_witness :
    StreamTask ⟨404, "application/json"⟩ =
        .error (.unexpectedStatus 404) ∧
      StreamTask ⟨200, "application/json"⟩ =
        .error (.notEventStream "application/json") ∧
      StreamTask ⟨200, "text/event-stream; charset=utf-8"⟩ = .ok ⟨10, true⟩ :=
  ⟨(c3_streamtask_validates_response ⟨404, "application/json"⟩).1 (by decide),
    (c3_streamtask_validates_response ⟨200, "application/json"⟩).2.1 rfl (by decide),
    (c3_streamtask_validates_response
      ⟨200, "text/event-stream; charset=utf-8"⟩).2.2 rfl (by decide)⟩

/-- `jsonrpc.RawResponse`: the decoded JSON-RPC envelope — an optional
structured error and the raw bytes of the `result` field (empty list =
missing/null result, matching `len(fullResponse.Result) == 0`). -/
structure RawResponse where
  error : Option JSONRPCError
  result : List Nat
  deriving DecidableEq, Repr

/-- The client's error outcomes, one constructor per `return` site of
`doRequest`/`doRequestAndDecodeTask` and per wrapping operation:
transport failure, the server-reported JSON-RPC error, a missing
`result` field, a `result` that fails to unmarshal into a `Task`, and
the per-operation `fmt.Errorf` wrapper. -/
inductive ClientError
  | transport (msg : String)
  | rpc (e : JSONRPCError)
  | missingResult
  | decodeFailure
  | wrapped (opName : String) (e : ClientError)
  deriving DecidableEq, Repr

/-- `client.doRequestAndDecodeTask` (src part_000 lines 288-315) with
`doRequest` summarised by its result `res` and `json.Unmarshal` into a
`Task` by `decodeTask`: propagate a transport error, surface the
envelope's error field if set, fail on a missing result, fail on an
undecodable result, and otherwise return the decoded task with no
error. The pair mirrors Go's `(*Task, error)` return. -/
def doRequestAndDecodeTask (decodeTask : List Nat → Option Task)
    (res : Except String RawResponse) : Option Task × Option ClientError :=
  match res with
  | .error msg => (none, some (.transport msg))
  | .ok fullResponse =>
    match fullResponse.error with
    | some e => (none, some (.rpc e))
    | none =>
      if fullResponse.result.isEmpty then (none, some .missingResult)
      else
        match decodeTask fullResponse.result with
        | none => (none, some .decodeFailure)
        | some task => (some task, none)

/-- `client.SendTasks` (src part_000 lines 73-90): call
`doRequestAndDecodeTask` and wrap any error with the operation name. -/
def SendTasks (decodeTask : List Nat → Option Task)
    (res : Except String RawResponse) : Option Task × Option ClientError :=
  match doRequestAndDecodeTask decodeTask res with
  | (task, none) => (task, none)
  | (_, some e) => (none, some (.wrapped "a2aClient.SendTasks" e))

/-- `client.GetTasks` (src part_000 lines 93-108). -/
def GetTasks (decodeTask : List Nat → Option Task)
    (res : Except String RawResponse) : Option Task × Option ClientError :=
  match doRequestAndDecodeTask decodeTask res with
  | (task, none) => (task, none)
  | (_, some e) => (none, some (.wrapped "a2aClient.GetTasks" e))

/-- `client.CancelTasks` (src part_000 lines 112-127). -/
def CancelTasks (decodeTask : List Nat → Option Task)
    (res : Except String RawResponse) : Option Task × Option ClientError :=
  match doRequestAndDecodeTask decodeTask res with
  | (task, none) => (task, none)
  | (_, some e) => (none, some (.wrapped "a2aClient.CancelTasks" e))

theorem doRequestAndDecodeTask_xor (decodeTask : List Nat → Option Task)
    (res : Except String RawResponse) :
    (doRequestAndDecodeTask decodeTask res).1.isSome ↔
      (doRequestAndDecodeTask decodeTask res).2 = none := by
  cases res with
  | error msg => simp [doRequestAndDecodeTask]
  | ok fr =>
    cases he : fr.error with
    | some e => simp [doRequestAndDecodeTask, he]
    | none =>
      by_cases hr : fr.result.isEmpty
      · simp [doRequestAndDecodeTask, he, hr]
      · cases hd : decodeTask fr.result with
        | none => simp [doRequestAndDecodeTask, he, hr, hd]
        | some task => simp [doRequestAndDecodeTask, he, hr, hd]

/-- C6: each synchronous client operation yields either a decoded task
with no error or an error with no task — never both, never neither —
and when the JSON-RPC envelope carries an error, that structured error
is what is surfaced. -/
theorem c6_task_xor_error (decodeTask : List Nat → Option Task)
    (res : Except String RawResponse) :
    ((doRequestAndDecodeTask decodeTask res).1.isSome ↔
        (doRequestAndDecodeTask decodeTask res).2 = none) ∧
      (∀ fr e, res = .ok fr → fr.error = some e →
        doRequestAndDecodeTask decodeTask res = (none, some (.rpc e))) ∧
      ((SendTasks decodeTask res).1.isSome ↔
        (SendTasks decodeTask res).2 = none) ∧
      ((GetTasks decodeTask res).1.isSome ↔
        (GetTasks decodeTask res).2 = none) ∧
      ((CancelTasks decodeTask res).1.isSome ↔
        (CancelTasks decodeTask res).2 = none) := by
  refine ⟨doRequestAndDecodeTask_xor decodeTask res, fun fr e hres he => ?_, ?_, ?_, ?_⟩
  · subst hres
    simp [doRequestAndDecodeTask, he]
  · unfold SendTasks
    cases h : doRequestAndDecodeTask decodeTask res with
    | mk task err =>
      cases err with
      | none =>
        have := doRequestAndDecodeTask_xor decodeTask res
        rw [h] at this
        simp_all
      | some e => simp
  · unfold GetTasks
    cases h : doRequestAndDecodeTask decodeTask res with
    | mk task err =>
      cases err with
      | none =>
        have := doRequestAndDecodeTask_xor decodeTask res
        rw [h] at this
        simp_all
      | some e => simp
  · unfold CancelTasks
    cases h : doRequestAndDecodeTask decodeTask res with
    | mk task err =>
      cases err with
      | none =>
        have := doRequestAndDecodeTask_xor decodeTask res
        rw [h] at this
        simp_all
      | some e => simp

/-- C6 witness: the theorem applied where the envelope reports the
task-not-found JSON-RPC error — the structured error is surfaced with no
task. -/
theorem c6_task_xor_error_witness :
    doRequestAndDecodeTask (fun _ => none)
        (.ok ⟨some ⟨-32001, "Task not found", "d"⟩, []⟩) =
      (none, some (ClientError.rpc ⟨-32001, "Task not found", "d"⟩)) :=
  (c6_task_xor_error (fun _ => none)
      (.ok ⟨some ⟨-32001, "Task not found", "d"⟩, []⟩)).2.1
    ⟨some ⟨-32001, "Task not found", "d"⟩, []⟩ ⟨-32001, "Task not found", "d"⟩ rfl rfl

/-- The in-memory task map of the `MemoryTaskManager`, as an association
list keyed by task ID. -/
abbrev TaskStore := List (String × Task)

/-- Map assignment `tasks[id] = t`: replace the entry for `id`, or add
it. -/
def storePut (store : TaskStore) (id : String) (t : Task) : TaskStore :=
  match store with
  | [] => [(id, t)]
  | (k, v) :: rest =>
    if k == id then (id, t) :: rest else (k, v) :: storePut rest id t

theorem storePut_lookup (store : TaskStore) (id : String) (t : Task) :
    (storePut store id t).lookup id = some t := by
  induction store with
  | nil => simp [storePut, List.lookup]
  | cons kv rest ih =>
    obtain ⟨k, v⟩ := kv
    by_cases h : k = id
    · simp [storePut, h, List.lookup]
    · have h' : (id == k) = false := by
        simp [beq_iff_eq]
        exact fun he => h he.symm
      simp [storePut, h, List.lookup, h', ih]

/-- Modelled from the spec: `MemoryTaskManager.OnCancelTask` (the
in-memory task manager implementation is not among the provided sources;
spec section 4.1): fail with `TaskNotFound` if the ID is absent, fail
with `TaskFinalState` — leaving the store untouched — if the task is
already final, otherwise transition the task to `canceled` and stamp the
current timestamp `now`. The returned store is the task map after the
call. -/
def OnCancelTask (now : String) (store : TaskStore) (id : String) :
    TaskStore × Except JSONRPCError Task :=
  match store.lookup id with
  | none => (store, .error (ErrTaskNotFound id))
  | some task =>
    if task.status.state.isFinal then
      (store, .error (ErrTaskFinalState id task.status.state))
    else
      let updated := { task with status := ⟨TaskState.canceled, now⟩ }
      (storePut store id updated, .ok updated)

/-- C2: Cancel on an absent ID returns `TaskNotFound`; Cancel on a final
task returns `TaskFinalState` and leaves the store unchanged; Cancel on
a `submitted` task transitions it to `canceled` with the fresh
timestamp, in the returned record and in the store. -/
theorem c2_cancel_semantics (now : String) (store : TaskStore) (id : String) :
    (store.lookup id = none →
        OnCancelTask now store id = (store, .error (ErrTaskNotFound id))) ∧
      (∀ t, store.lookup id = some t → t.status.state.isFinal = true →
        OnCancelTask now store id =
          (store, .error (ErrTaskFinalState id t.status.state))) ∧
      (∀ t, store.lookup id = some t → t.status.state = TaskState.submitted →
        OnCancelTask now store id =
            (storePut store id { t with status := ⟨TaskState.canceled, now⟩ },
              .ok { t with status := ⟨TaskState.canceled, now⟩ }) ∧
          (OnCancelTask now store id).1.lookup id =
            some { t with status := ⟨TaskState.canceled, now⟩ }) := by
  refine ⟨fun h => ?_, fun t h hf => ?_, fun t h hs => ?_⟩
  · simp [OnCancelTask, h]
  · simp [OnCancelTask, h, hf]
  · have hnf : t.status.state.isFinal = false := by
      rw [hs]; rfl
    constructor
    · simp [OnCancelTask, h, hnf]
    · simp [OnCancelTask, h, hnf, storePut_lookup]

/-- C2 witness: the theorem at a two-task store — cancel of a missing
ID, of a completed task, and of a submitted task. -/
theorem c2_cancel_semantics_witness :
    (OnCancelTask "t2" [] "absent" = ([], .error (ErrTaskNotFound "absent")) ∧
      OnCancelTask "t2" [("a", ⟨"a", "s", ⟨TaskState.completed, "t1"⟩, [], []⟩)] "a" =
        ([("a", ⟨"a", "s", ⟨TaskState.completed, "t1"⟩, [], []⟩)],
          .error (ErrTaskFinalState "a" TaskState.completed))) ∧
      OnCancelTask "t2" [("b", ⟨"b", "s", ⟨TaskState.submitted, "t1"⟩, [], []⟩)] "b" =
        ([("b", ⟨"b", "s", ⟨TaskState.canceled, "t2"⟩, [], []⟩)],
          .ok ⟨"b", "s", ⟨TaskState.canceled, "t2"⟩, [], []⟩) :=
  ⟨⟨(c2_cancel_semantics "t2" [] "absent").1 rfl,
    (c2_cancel_semantics "t2"
        [("a", ⟨"a", "s", ⟨TaskState.completed, "t1"⟩, [], []⟩)] "a").2.1
      ⟨"a", "s", ⟨TaskState.completed, "t1"⟩, [], []⟩ (by decide) rfl⟩,
    ((c2_cancel_semantics "t2"
        [("b", ⟨"b", "s", ⟨TaskState.submitted, "t1"⟩, [], []⟩)] "b").2.2
      ⟨"b", "s", ⟨TaskState.submitted, "t1"⟩, [], []⟩ (by decide) rfl).1⟩

/-- `taskmanager.SendTaskParams`: the caller-assigned ID, the optional
session ID and the triggering message (its defining file is not among
the provided sources; fields per the spec's `Send(params{ID, SessionID,
Message})`). -/
structure SendTaskParams where
  id : String
  sessionID : String
  message : Message
  deriving DecidableEq, Repr

/-- Modelled from the spec: `MemoryTaskManager.OnSendTask` (spec section
4.1): an existing non-final ID is a resume — append the message to the
task's history and return the existing record without invoking the
processor; an existing final ID fails with `TaskFinalState` (final-state
immutability, spec section 3); a new ID creates a `submitted` task,
stamps it, and invokes the processor asynchronously. The trailing `Bool`
records whether the processor was invoked by this call. -/
def OnSendTask (now : String) (store : TaskStore) (params : SendTaskParams) :
    TaskStore × Except JSONRPCError Task × Bool :=
  match store.lookup params.id with
  | some t =>
    if t.status.state.isFinal then
      (store, .error (ErrTaskFinalState params.id t.status.state), false)
    else
      let resumed := { t with history := t.history ++ [params.message] }
      (storePut store params.id resumed, .ok resumed, false)
  | none =>
    let created : Task :=
      { id := params.id
        sessionID := params.sessionID
        status := ⟨TaskState.submitted, now⟩
        history := [params.message]
        artifacts := [] }
    (storePut store params.id created, .ok created, true)

/-- C4: Send with an ID already stored in a non-final state appends the
incoming message to that task's history, returns the existing record
(same ID, session, status and artifacts), and does not invoke the task
processor. -/
theorem c4_send_resume_idempotent (now : String) (store : TaskStore)
    (params : SendTaskParams) (t : Task)
    (h : store.lookup params.id = some t)
    (hnf : t.status.state.isFinal = false) :
    OnSendTask now store params =
      (storePut store params.id { t with history := t.history ++ [params.message] },
        .ok { t with history := t.history ++ [params.message] }, false) := by
  simp [OnSendTask, h, hnf]

/-- C4 witness: the theorem at a store holding one `working` task —
resume appends the message and reports the processor as not invoked. -/
theorem c4_send_resume_idempotent_witness :
    OnSendTask "t9"
        [("a", ⟨"a", "s", ⟨TaskState.working, "t1"⟩,
          [⟨MessageRole.user, [Part.text "hi"]⟩], []⟩)]
        ⟨"a", "s", ⟨MessageRole.user, [Part.text "again"]⟩⟩ =
      ([("a", ⟨"a", "s", ⟨TaskState.working, "t1"⟩,
          [⟨MessageRole.user, [Part.text "hi"]⟩,
            ⟨MessageRole.user, [Part.text "again"]⟩], []⟩)],
        .ok ⟨"a", "s", ⟨TaskState.working, "t1"⟩,
          [⟨MessageRole.user, [Part.text "hi"]⟩,
            ⟨MessageRole.user, [Part.text "again"]⟩], []⟩, false) :=
  c4_send_resume_idempotent "t9"
    [("a", ⟨"a", "s", ⟨TaskState.working, "t1"⟩,
      [⟨MessageRole.user, [Part.text "hi"]⟩], []⟩)]
    ⟨"a", "s", ⟨MessageRole.user, [Part.text "again"]⟩⟩
    ⟨"a", "s", ⟨TaskState.working, "t1"⟩,
      [⟨MessageRole.user, [Part.text "hi"]⟩], []⟩
    rfl (by decide)

/-- The channel `OnResubscribe` hands back, seen as its delivery
contract: either a channel that delivers a fixed list of events and then
closes (the synthetic final-status case), or a live channel joined to
the task's fan-out set. -/
inductive ResubscribeChannel
  | closedAfter (events : List TaskEvent)
  | live
  deriving DecidableEq, Repr

/-- Modelled from the spec: `MemoryTaskManager.OnResubscribe` (spec
section 4.1): fail with `TaskNotFound` if the ID is absent; if the task
is already final, return a channel that immediately delivers one
synthetic status event reflecting the final state and then closes; if
still in flight, join the live fan-out set (future events only). -/
def OnResubscribe (store : TaskStore) (id : String) :
    Except JSONRPCError ResubscribeChannel :=
  match store.lookup id with
  | none => .error (ErrTaskNotFound id)
  | some t =>
    if t.status.state.isFinal then
      .ok (.closedAfter [TaskEvent.statusUpdate ⟨id, t.status, true⟩])
    else .ok .live

/-- C5: Resubscribe on an absent ID fails with `TaskNotFound` and
returns no channel; Resubscribe on a final task returns a channel that
delivers exactly one synthetic status event carrying the task's final
status and then closes. -/
theorem c5_resubscribe_semantics (store : TaskStore) (id : String) :
    (store.lookup id = none →
        OnResubscribe store id = .error (ErrTaskNotFound id)) ∧
      (∀ t, store.lookup id = some t → t.status.state.isFinal = true →
        OnResubscribe store id =
            .ok (.closedAfter [TaskEvent.statusUpdate ⟨id, t.status, true⟩]) ∧
          [TaskEvent.statusUpdate ⟨id, t.status, true⟩].length = 1) := by
  refine ⟨fun h => ?_, fun t h hf => ⟨?_, rfl⟩⟩
  · simp [OnResubscribe, h]
  · simp [OnResubscribe, h, hf]

/-- C5 witness: the theorem at an absent ID and at a store holding one
failed task — one synthetic event with the failed status, then
closure. -/
theorem c5_resubscribe_semantics_witness :
    OnResubscribe [] "absent" = .error (ErrTaskNotFound "absent") ∧
      OnResubscribe [("a", ⟨"a", "s", ⟨TaskState.failed, "t3"⟩, [], []⟩)] "a" =
        .ok (.closedAfter
          [TaskEvent.statusUpdate ⟨"a", ⟨TaskState.failed, "t3"⟩, true⟩]) :=
  ⟨(c5_resubscribe_semantics [] "absent").1 rfl,
    ((c5_resubscribe_semantics
        [("a", ⟨"a", "s", ⟨TaskState.failed, "t3"⟩, [], []⟩)] "a").2
      ⟨"a", "s", ⟨TaskState.failed, "t3"⟩, [], []⟩ rfl (by decide)).1⟩

end A2A
